import Mathlib

/-!
Shallow embedding of `health_checker.py` (AI Tools LLM Proxy Health Checker).

The program is a sequential CLI: load configuration from the environment,
register a user against `/auth/register` to obtain a JWT token, run one probe
per selected provider (opensource / openai / anthropic), print a report and
return an exit code.

Modelling choices:
* The HTTP transport is an oracle `transport : Nat → CallResult` giving the
  outcome of the n-th request issued by the shared `httpx.Client`; the client
  carries a call counter and a log of the requests made, so "no network call
  was made" is expressible.
* A response body is abstracted to the parts the program reads: the raw text
  (`response.text`), whether `response.json()` succeeds, and — when it does —
  the value of `data.get('token')` (as an optional string; `none` stands for
  an absent or null field) together with an opaque rendering of the decoded
  document (stored as `response_data` / `full_response`).
* `response.elapsed.total_seconds()` is modelled as a natural number carried
  by the response; the probes only copy it or replace it by the literal 0.
* Python string truthiness (`if not username`, `if not config.get(...)`) is
  `truthy : Option String → Bool` (false exactly on `none` and `some ""`).
* JSON request payloads (model id, messages, max_tokens, stream) are fixed
  literals never inspected by the program afterward; requests are modelled by
  their URL and headers only.
* An uncaught Python exception is `Except.error`; the interpreter then exits
  with status 1, which `processExitCode` accounts for.
* A `KeyboardInterrupt` delivered while the `try:` block runs is modelled by
  a boolean input; when set, the body of the `try:` is abandoned at its start
  and the `except KeyboardInterrupt` handler returns 1.
-/

/-- Python truthiness of an optional string: `None` and `""` are falsy. -/
def truthy : Option String → Bool
  | none => false
  | some s => !s.isEmpty

/-- Python `a or b` on optional strings: `a` when truthy, else `b`. -/
def pyOr (a b : Option String) : Option String :=
  if truthy a then a else b

/-- Python `str`/f-string rendering of an optional string (`None` prints as "None"). -/
def pyStr : Option String → String
  | none => "None"
  | some s => s

/-- Drop leading whitespace characters from a character list. -/
def dropLeadingWs : List Char → List Char
  | [] => []
  | c :: cs => if c.isWhitespace then dropLeadingWs cs else c :: cs

/-- Strip leading and trailing whitespace, as `int()` does before parsing. -/
def pyStrip (s : String) : List Char :=
  dropLeadingWs ((dropLeadingWs s.data.reverse).reverse)

/-- Decimal digit run parser: `some n` when the run is nonempty and all digits. -/
def decDigits? (cs : List Char) : Option Nat :=
  if cs.isEmpty then none
  else if cs.all (fun c => c.isDigit) then
    some (cs.foldl (fun n c => 10 * n + (c.toNat - 48)) 0)
  else none

/-- Python `int(s)`: strips whitespace, accepts an optionally signed decimal
integer, raises `ValueError` (here: `none`) otherwise. -/
def pyIntParse (s : String) : Option Int :=
  match pyStrip s with
  | '-' :: rest => (decDigits? rest).map (fun n => -(n : Int))
  | '+' :: rest => (decDigits? (rest)).map (fun n => (n : Int))
  | cs => (decDigits? cs).map (fun n => (n : Int))

/-- The decoded JSON document of a response, abstracted to what the program
reads: `tokenField` is `data.get('token')` (`none` = absent or null), `raw` is
an opaque rendering of the whole document (stored as `response_data`). -/
structure JsonBody where
  tokenField : Option String
  raw : String
deriving DecidableEq

/-- An HTTP response as observed by the program: `status_code`, `text`,
the outcome of `response.json()` (`Except.error` = decode exception text),
and `elapsed.total_seconds()`. -/
structure HttpResponse where
  status_code : Nat
  text : String
  json : Except String JsonBody
  elapsedSeconds : Nat

/-- Outcome of one `client.post`: a response, or a transport exception whose
`str(e)` is `msg`. -/
inductive CallResult where
  | ok (resp : HttpResponse)
  | exn (msg : String)

/-- One HTTP request as issued by the program (URL and headers; the fixed JSON
payloads are never read back by the program and are not modelled). -/
structure Request where
  url : String
  headers : List (String × String)

/-- The shared `httpx.Client`: the transport oracle, how many requests were
issued so far, and the log of issued requests. -/
structure Client where
  transport : Nat → CallResult
  callCount : Nat
  requests : List Request

/-- `client.post(...)`: consult the oracle at the current call index, bump the
counter and log the request. -/
def Client.post (c : Client) (req : Request) : CallResult × Client :=
  (c.transport c.callCount,
   { c with callCount := c.callCount + 1, requests := c.requests ++ [req] })

/-- The outcome the transport will give to the next request of this client. -/
def nextOutcome (c : Client) : CallResult :=
  c.transport c.callCount

/-- The configuration dictionary built by `load_config`. -/
structure Config where
  OPENAI_API_KEY : Option String
  OPENAI_ORG_ID : Option String
  ANTHROPIC_API_KEY : Option String
  PROXY_BASE_URL : String
  PROXY_TIMEOUT : Int
  DEFAULT_USERNAME : Option String
  DEFAULT_PIN : Option String

/-- The process environment as seen by `os.getenv` after `load_dotenv` merged
the `.env` file. -/
structure Env where
  OPENAI_API_KEY : Option String
  OPENAI_ORG_ID : Option String
  ANTHROPIC_API_KEY : Option String
  PROXY_BASE_URL : Option String
  PROXY_TIMEOUT : Option String
  DEFAULT_USERNAME : Option String
  DEFAULT_PIN : Option String

/-- `load_config()`: defaults for base URL and timeout; `int()` on the timeout
string may raise `ValueError`, modelled as `Except.error`. -/
def load_config (env : Env) : Except String Config :=
  match pyIntParse (env.PROXY_TIMEOUT.getD ("30")) with
  | none =>
      Except.error ("ValueError: invalid literal for int with base 10: " ++
        env.PROXY_TIMEOUT.getD ("30"))
  | some t =>
      Except.ok
        { OPENAI_API_KEY := env.OPENAI_API_KEY
          OPENAI_ORG_ID := env.OPENAI_ORG_ID
          ANTHROPIC_API_KEY := env.ANTHROPIC_API_KEY
          PROXY_BASE_URL := env.PROXY_BASE_URL.getD ("http://aitools.cs.vt.edu:7860")
          PROXY_TIMEOUT := t
          DEFAULT_USERNAME := env.DEFAULT_USERNAME
          DEFAULT_PIN := env.DEFAULT_PIN }

/-- The result dictionary produced by each `test_*_provider` method. The
`full_response` key is only present (`some`) when verbose and HTTP 200. -/
structure ProbeResult where
  provider : String
  status_code : Nat
  success : Bool
  response_time : Nat
  error : Option String
  response_data : Option String
  full_response : Option String
deriving DecidableEq

/-- The `HealthChecker` object: configuration, the mutable `jwt_token` field,
and the shared HTTP client. -/
structure HealthChecker where
  config : Config
  jwt_token : Option String
  client : Client

/-- `HealthChecker.register_user`: POST to `/auth/register`; on HTTP 200 store
`data.get('token')` into `jwt_token` and succeed only when that value is
truthy; on any other status, a decode error or a transport exception, fail. -/
def HealthChecker.register_user (hc : HealthChecker) (username pin : String) :
    Bool × HealthChecker :=
  let pr := hc.client.post
    { url := hc.config.PROXY_BASE_URL ++ "/auth/register", headers := [] }
  let hc1 : HealthChecker := { hc with client := pr.snd }
  match pr.fst with
  | CallResult.ok resp =>
      if resp.status_code = 200 then
        match resp.json with
        | Except.ok dta =>
            let hc2 := { hc1 with jwt_token := dta.tokenField }
            if truthy dta.tokenField then (true, hc2) else (false, hc2)
        | Except.error _ => (false, hc1)
      else (false, hc1)
  | CallResult.exn _ => (false, hc1)

/-- `HealthChecker.test_opensource_provider`: one POST to
`/opensource/v1/chat/completions` with a bearer header; success is HTTP 200. -/
def HealthChecker.test_opensource_provider (hc : HealthChecker) (verbose : Bool) :
    ProbeResult × HealthChecker :=
  let headers : List (String × String) :=
    [("Authorization", "Bearer " ++ pyStr hc.jwt_token),
     ("Content-Type", "application/json")]
  let pr := hc.client.post
    { url := hc.config.PROXY_BASE_URL ++ "/opensource/v1/chat/completions",
      headers := headers }
  let hc1 : HealthChecker := { hc with client := pr.snd }
  match pr.fst with
  | CallResult.ok resp =>
      if resp.status_code = 200 then
        match resp.json with
        | Except.ok dta =>
            ({ provider := "opensource", status_code := resp.status_code,
               success := resp.status_code == 200,
               response_time := resp.elapsedSeconds, error := none,
               response_data := some dta.raw,
               full_response := if verbose then some dta.raw else none }, hc1)
        | Except.error msg =>
            ({ provider := "opensource", status_code := 0, success := false,
               response_time := 0, error := some msg, response_data := none,
               full_response := none }, hc1)
      else
        ({ provider := "opensource", status_code := resp.status_code,
           success := resp.status_code == 200,
           response_time := resp.elapsedSeconds, error := some resp.text,
           response_data := none, full_response := none }, hc1)
  | CallResult.exn msg =>
      ({ provider := "opensource", status_code := 0, success := false,
         response_time := 0, error := some msg, response_data := none,
         full_response := none }, hc1)

/-- `HealthChecker.test_openai_provider`: gated on a configured,
non-placeholder OpenAI key; otherwise one POST to
`/openai/v1/chat/completions` with key (and optional org) headers. -/
def HealthChecker.test_openai_provider (hc : HealthChecker) (verbose : Bool) :
    ProbeResult × HealthChecker :=
  if !truthy hc.config.OPENAI_API_KEY ||
      hc.config.OPENAI_API_KEY == some ("your_openai_api_key_here") then
    ({ provider := "openai", status_code := 0, success := false,
       response_time := 0, error := some ("OpenAI API key not configured"),
       response_data := none, full_response := none }, hc)
  else
    let headers0 : List (String × String) :=
      [("Authorization", "Bearer " ++ pyStr hc.jwt_token),
       ("Content-Type", "application/json"),
       ("X-User-OpenAI-Key", pyStr hc.config.OPENAI_API_KEY)]
    let headers :=
      if truthy hc.config.OPENAI_ORG_ID &&
          !(hc.config.OPENAI_ORG_ID == some ("your_openai_org_id_here")) then
        headers0 ++ [("X-User-OpenAI-Org", pyStr hc.config.OPENAI_ORG_ID)]
      else headers0
    let pr := hc.client.post
      { url := hc.config.PROXY_BASE_URL ++ "/openai/v1/chat/completions",
        headers := headers }
    let hc1 : HealthChecker := { hc with client := pr.snd }
    match pr.fst with
    | CallResult.ok resp =>
        if resp.status_code = 200 then
          match resp.json with
          | Except.ok dta =>
              ({ provider := "openai", status_code := resp.status_code,
                 success := resp.status_code == 200,
                 response_time := resp.elapsedSeconds, error := none,
                 response_data := some dta.raw,
                 full_response := if verbose then some dta.raw else none }, hc1)
          | Except.error msg =>
              ({ provider := "openai", status_code := 0, success := false,
                 response_time := 0, error := some msg, response_data := none,
                 full_response := none }, hc1)
        else
          ({ provider := "openai", status_code := resp.status_code,
             success := resp.status_code == 200,
             response_time := resp.elapsedSeconds, error := some resp.text,
             response_data := none, full_response := none }, hc1)
    | CallResult.exn msg =>
        ({ provider := "openai", status_code := 0, success := false,
           response_time := 0, error := some msg, response_data := none,
           full_response := none }, hc1)

/-- `HealthChecker.test_anthropic_provider`: gated on a configured,
non-placeholder Anthropic key; otherwise one POST to
`/anthropic/v1/messages` with the key header. -/
def HealthChecker.test_anthropic_provider (hc : HealthChecker) (verbose : Bool) :
    ProbeResult × HealthChecker :=
  if !truthy hc.config.ANTHROPIC_API_KEY ||
      hc.config.ANTHROPIC_API_KEY == some ("your_anthropic_api_key_here") then
    ({ provider := "anthropic", status_code := 0, success := false,
       response_time := 0, error := some ("Anthropic API key not configured"),
       response_data := none, full_response := none }, hc)
  else
    let headers : List (String × String) :=
      [("Authorization", "Bearer " ++ pyStr hc.jwt_token),
       ("Content-Type", "application/json"),
       ("X-User-Anthropic-Key", pyStr hc.config.ANTHROPIC_API_KEY)]
    let pr := hc.client.post
      { url := hc.config.PROXY_BASE_URL ++ "/anthropic/v1/messages",
        headers := headers }
    let hc1 : HealthChecker := { hc with client := pr.snd }
    match pr.fst with
    | CallResult.ok resp =>
        if resp.status_code = 200 then
          match resp.json with
          | Except.ok dta =>
              ({ provider := "anthropic", status_code := resp.status_code,
                 success := resp.status_code == 200,
                 response_time := resp.elapsedSeconds, error := none,
                 response_data := some dta.raw,
                 full_response := if verbose then some dta.raw else none }, hc1)
          | Except.error msg =>
              ({ provider := "anthropic", status_code := 0, success := false,
                 response_time := 0, error := some msg, response_data := none,
                 full_response := none }, hc1)
        else
          ({ provider := "anthropic", status_code := resp.status_code,
             success := resp.status_code == 200,
             response_time := resp.elapsedSeconds, error := some resp.text,
             response_data := none, full_response := none }, hc1)
    | CallResult.exn msg =>
        ({ provider := "anthropic", status_code := 0, success := false,
           response_time := 0, error := some msg, response_data := none,
           full_response := none }, hc1)

/-- Insert-or-overwrite into the insertion-ordered results dictionary
(`results[provider] = result` on a Python dict). -/
def dictInsert (d : List (String × ProbeResult)) (k : String) (v : ProbeResult) :
    List (String × ProbeResult) :=
  if d.any (fun p => p.1 == k) then
    d.map (fun p => if p.1 == k then (k, v) else p)
  else d ++ [(k, v)]

/-- Loop body of `run_health_checks`: walk the provider list, run the matching
`test_*` method when the name is one of the three known providers (unknown
names are skipped, as by the `provider in provider_tests` check), and record
each result in the dictionary. -/
def HealthChecker.run_checks_aux (hc : HealthChecker) (providers : List String)
    (verbose : Bool) (acc : List (String × ProbeResult)) :
    List (String × ProbeResult) × HealthChecker :=
  match providers with
  | [] => (acc, hc)
  | p :: rest =>
      if p == "opensource" then
        let pr := hc.test_opensource_provider verbose
        pr.snd.run_checks_aux rest verbose (dictInsert acc ("opensource") pr.fst)
      else if p == "openai" then
        let pr := hc.test_openai_provider verbose
        pr.snd.run_checks_aux rest verbose (dictInsert acc ("openai") pr.fst)
      else if p == "anthropic" then
        let pr := hc.test_anthropic_provider verbose
        pr.snd.run_checks_aux rest verbose (dictInsert acc ("anthropic") pr.fst)
      else hc.run_checks_aux rest verbose acc

/-- `HealthChecker.run_health_checks`: results dictionary keyed by provider
name together with the checker state after all probes ran. -/
def HealthChecker.run_health_checks (hc : HealthChecker) (providers : List String)
    (verbose : Bool) : List (String × ProbeResult) × HealthChecker :=
  hc.run_checks_aux providers verbose []

/-- The parsed command-line arguments (argparse restricts `--provider` to the
three known names; the model carries it as an optional string). -/
structure Args where
  verbose : Bool
  show_token : Bool
  token_only : Bool
  provider : Option String
  username : Option String
  pin : Option String

/-- The observable outcome of a normal return from `main`: the returned exit
code, the HTTP requests issued, the probe results dictionary, the printed
registration verdict (`none` when registration was never attempted), the JWT
token printed by `--show-token`/`--token-only` (`none` when not printed), and
the credential error message printed before exiting early (`none` otherwise). -/
structure MainResult where
  exitCode : Int
  requests : List Request
  results : List (String × ProbeResult)
  registered : Option Bool
  tokenPrinted : Option String
  credError : Option String

/-- `main()` (embedded as `main'`): argument handling, configuration, credential checks, user
registration, optional token-only short cut, probes, summary and exit code.
`load_config` and the `HealthChecker(config)` construction run before the
`try:` block, so a `ValueError` from `int(PROXY_TIMEOUT)` propagates uncaught
(`Except.error`). `kbInterrupt` models a `KeyboardInterrupt` delivered while
the `try:` block runs. -/
def main' (args : Args) (env : Env) (transport : Nat → CallResult)
    (kbInterrupt : Bool) : Except String MainResult :=
  match load_config env with
  | Except.error e => Except.error e
  | Except.ok config =>
      let username := pyOr args.username config.DEFAULT_USERNAME
      let pin := pyOr args.pin config.DEFAULT_PIN
      if !truthy username then
        Except.ok
          { exitCode := 1, requests := [], results := [], registered := none,
            tokenPrinted := none,
            credError := some ("Error: Username is required. Provide --username or set DEFAULT_USERNAME in .env file.") }
      else if !truthy pin then
        Except.ok
          { exitCode := 1, requests := [], results := [], registered := none,
            tokenPrinted := none,
            credError := some ("Error: PIN is required. Provide --pin or set DEFAULT_PIN in .env file.") }
      else
        let providers :=
          match args.provider with
          | some p => [p]
          | none => ["opensource"]
        let checker : HealthChecker :=
          { config := config, jwt_token := none,
            client := { transport := transport, callCount := 0, requests := [] } }
        if kbInterrupt then
          Except.ok
            { exitCode := 1, requests := checker.client.requests, results := [],
              registered := none, tokenPrinted := none, credError := none }
        else
          let reg := checker.register_user (pyStr username) (pyStr pin)
          if !reg.fst then
            Except.ok
              { exitCode := 1, requests := reg.snd.client.requests, results := [],
                registered := some false, tokenPrinted := none, credError := none }
          else
            let checker1 := reg.snd
            let tokenPrinted :=
              if args.show_token || args.token_only then
                some (pyStr checker1.jwt_token)
              else none
            if args.token_only then
              Except.ok
                { exitCode := 0, requests := checker1.client.requests,
                  results := [], registered := some true,
                  tokenPrinted := tokenPrinted, credError := none }
            else
              let rr := checker1.run_health_checks providers args.verbose
              let results := rr.fst
              let total := results.length
              let passed := (results.filter (fun r => r.2.success)).length
              let failed := total - passed
              Except.ok
                { exitCode := if failed = 0 then 0 else 1,
                  requests := rr.snd.client.requests, results := results,
                  registered := some true, tokenPrinted := tokenPrinted,
                  credError := none }

/-- The process exit status of `sys.exit(main())`: the value returned by
`main`, or 1 when `main` raises an uncaught exception (the interpreter exits
with status 1 after printing a traceback). -/
def processExitCode : Except String MainResult → Int
  | Except.error _ => 1
  | Except.ok m => m.exitCode

/-- The HTTP requests issued during a run (none when `main` raised before the
client was constructed). -/
def requestsOf : Except String MainResult → List Request
  | Except.error _ => []
  | Except.ok m => m.requests

/-- The value of `data.get('token')` of a response, `none` when the body does
not decode or lacks the field. -/
def respToken (resp : HttpResponse) : Option String :=
  match resp.json with
  | Except.ok b => b.tokenField
  | Except.error _ => none

/-- Whether `main` returned a value (every exception raised during the run was
caught somewhere), as opposed to terminating by an uncaught exception. -/
def returnedNormally : Except String MainResult → Bool
  | Except.ok _ => true
  | Except.error _ => false

/-- A configuration with both gated provider keys configured with real-looking
values, used as a concrete test input. -/
def cfg0 : Config :=
  { OPENAI_API_KEY := some ("sk-test"), OPENAI_ORG_ID := none,
    ANTHROPIC_API_KEY := some ("ak-test"),
    PROXY_BASE_URL := "http://aitools.cs.vt.edu:7860", PROXY_TIMEOUT := 30,
    DEFAULT_USERNAME := none, DEFAULT_PIN := none }

/-- A configuration with the OpenAI key absent and the Anthropic key equal to
its literal placeholder, used as a concrete test input. -/
def cfgNoKeys : Config :=
  { OPENAI_API_KEY := none, OPENAI_ORG_ID := none,
    ANTHROPIC_API_KEY := some ("your_anthropic_api_key_here"),
    PROXY_BASE_URL := "http://aitools.cs.vt.edu:7860", PROXY_TIMEOUT := 30,
    DEFAULT_USERNAME := none, DEFAULT_PIN := none }

/-- A transport that answers every request with the same outcome. -/
def constClient (r : CallResult) : Client :=
  { transport := fun _ => r, callCount := 0, requests := [] }

/-- A freshly constructed checker over a constant transport. -/
def checkerOf (cfg : Config) (r : CallResult) : HealthChecker :=
  { config := cfg, jwt_token := none, client := constClient r }

/-- The failed-test count of the summary is zero exactly when every recorded
probe result has its success flag set. -/
theorem filter_deficit_zero_iff (l : List (String × ProbeResult)) :
    l.length - (l.filter (fun r => r.2.success)).length = 0 ↔
      ∀ r ∈ l, r.2.success = true := by
  induction l with
  | nil => simp
  | cons x xs ih =>
      by_cases h : x.2.success
      · simpa [List.filter_cons, h, Nat.succ_sub_succ] using ih
      · have hle : (xs.filter (fun r => r.2.success)).length ≤ xs.length :=
          xs.length_filter_le _
        simp only [List.filter_cons, h, Bool.false_eq_true, if_false,
          List.length_cons]
        constructor
        · intro hz
          exact absurd (Nat.le_of_sub_eq_zero hz)
            (by omega)
        · intro hall
          exact absurd (hall x (List.mem_cons_self x xs)) (by simpa using h)

/-- C10: every `ProbeResult` produced by any of the three probe operations, on
every branch (gated short-circuit, HTTP response of any status, JSON decode
failure, transport exception), has its success flag set exactly when its
recorded status code is 200. -/
theorem probe_success_iff_status200 (hc : HealthChecker) (v : Bool) :
    ((hc.test_opensource_provider v).fst.success = true ↔
      (hc.test_opensource_provider v).fst.status_code = 200) ∧
    ((hc.test_openai_provider v).fst.success = true ↔
      (hc.test_openai_provider v).fst.status_code = 200) ∧
    ((hc.test_anthropic_provider v).fst.success = true ↔
      (hc.test_anthropic_provider v).fst.status_code = 200) := by
  refine ⟨?_, ?_, ?_⟩
  · simp only [HealthChecker.test_opensource_provider, Client.post]
    cases hr : hc.client.transport hc.client.callCount with
    | ok resp =>
        by_cases hs : resp.status_code = 200
        · cases hj : resp.json with
          | ok dta => simp [hs, hj]
          | error msg => simp [hs, hj]
        · simp [hs]
    | exn msg => simp
  · simp only [HealthChecker.test_openai_provider, Client.post]
    by_cases hg : (!truthy hc.config.OPENAI_API_KEY ||
        hc.config.OPENAI_API_KEY == some ("your_openai_api_key_here")) = true
    · simp [hg]
    · simp only [hg, Bool.false_eq_true, if_false]
      cases hr : hc.client.transport hc.client.callCount with
      | ok resp =>
          by_cases hs : resp.status_code = 200
          · cases hj : resp.json with
            | ok dta => simp [hs, hj]
            | error msg => simp [hs, hj]
          · simp [hs]
      | exn msg => simp
  · simp only [HealthChecker.test_anthropic_provider, Client.post]
    by_cases hg : (!truthy hc.config.ANTHROPIC_API_KEY ||
        hc.config.ANTHROPIC_API_KEY == some ("your_anthropic_api_key_here")) = true
    · simp [hg]
    · simp only [hg, Bool.false_eq_true, if_false]
      cases hr : hc.client.transport hc.client.callCount with
      | ok resp =>
          by_cases hs : resp.status_code = 200
          · cases hj : resp.json with
            | ok dta => simp [hs, hj]
            | error msg => simp [hs, hj]
          · simp [hs]
      | exn msg => simp

/-- C4: for the openai and anthropic probes, whenever the corresponding API
key is absent or equals its literal placeholder, the probe returns
success=false, status_code=0, response_time=0 and the fixed
"API key not configured" error, and the checker (in particular its HTTP
client: call count and request log) is unchanged — zero network calls. -/
theorem gated_probe_no_key (hc : HealthChecker) (verbose : Bool) :
    ((hc.config.OPENAI_API_KEY = none ∨
        hc.config.OPENAI_API_KEY = some ("your_openai_api_key_here")) →
      (hc.test_openai_provider verbose).fst =
        { provider := "openai", status_code := 0, success := false,
          response_time := 0, error := some ("OpenAI API key not configured"),
          response_data := none, full_response := none } ∧
      (hc.test_openai_provider verbose).snd = hc) ∧
    ((hc.config.ANTHROPIC_API_KEY = none ∨
        hc.config.ANTHROPIC_API_KEY = some ("your_anthropic_api_key_here")) →
      (hc.test_anthropic_provider verbose).fst =
        { provider := "anthropic", status_code := 0, success := false,
          response_time := 0, error := some ("Anthropic API key not configured"),
          response_data := none, full_response := none } ∧
      (hc.test_anthropic_provider verbose).snd = hc) := by
  constructor
  · rintro (h | h) <;>
      simp [HealthChecker.test_openai_provider, h, truthy]
  · rintro (h | h) <;>
      simp [HealthChecker.test_anthropic_provider, h, truthy]

/-- Witness for C4: with the OpenAI key absent and the Anthropic key equal to
its placeholder, both gated probes short-circuit as stated. -/
theorem gated_probe_no_key_witness :
    ((checkerOf cfgNoKeys (CallResult.exn ("unreachable"))).test_openai_provider
        false).fst =
      { provider := "openai", status_code := 0, success := false,
        response_time := 0, error := some ("OpenAI API key not configured"),
        response_data := none, full_response := none } ∧
    ((checkerOf cfgNoKeys (CallResult.exn ("unreachable"))).test_anthropic_provider
        false).fst =
      { provider := "anthropic", status_code := 0, success := false,
        response_time := 0, error := some ("Anthropic API key not configured"),
        response_data := none, full_response := none } := by
  have h := gated_probe_no_key
    (checkerOf cfgNoKeys (CallResult.exn ("unreachable"))) false
  exact ⟨(h.1 (Or.inl rfl)).1, (h.2 (Or.inr rfl)).1⟩

/-- C6: when the transport raises an exception on the probe's request, every
probe returns status_code=0, response_time=0, success=false and the
exception's textual description as the error, and issues exactly one request
(call count and request log grow by exactly one — no retries). The openai and
anthropic parts assume their key gate is open, since otherwise no request is
attempted at all. -/
theorem probe_transport_exception (hc : HealthChecker) (v : Bool) (msg : String)
    (h : nextOutcome hc.client = CallResult.exn msg) :
    ((hc.test_opensource_provider v).fst =
        { provider := "opensource", status_code := 0, success := false,
          response_time := 0, error := some msg, response_data := none,
          full_response := none } ∧
      (hc.test_opensource_provider v).snd.client.callCount =
        hc.client.callCount + 1 ∧
      (hc.test_opensource_provider v).snd.client.requests.length =
        hc.client.requests.length + 1) ∧
    ((!truthy hc.config.OPENAI_API_KEY ||
        hc.config.OPENAI_API_KEY == some ("your_openai_api_key_here")) = false →
      (hc.test_openai_provider v).fst =
        { provider := "openai", status_code := 0, success := false,
          response_time := 0, error := some msg, response_data := none,
          full_response := none } ∧
      (hc.test_openai_provider v).snd.client.callCount =
        hc.client.callCount + 1 ∧
      (hc.test_openai_provider v).snd.client.requests.length =
        hc.client.requests.length + 1) ∧
    ((!truthy hc.config.ANTHROPIC_API_KEY ||
        hc.config.ANTHROPIC_API_KEY == some ("your_anthropic_api_key_here")) = false →
      (hc.test_anthropic_provider v).fst =
        { provider := "anthropic", status_code := 0, success := false,
          response_time := 0, error := some msg, response_data := none,
          full_response := none } ∧
      (hc.test_anthropic_provider v).snd.client.callCount =
        hc.client.callCount + 1 ∧
      (hc.test_anthropic_provider v).snd.client.requests.length =
        hc.client.requests.length + 1) := by
  simp only [nextOutcome] at h
  refine ⟨?_, fun hg => ?_, fun hg => ?_⟩
  · simp [HealthChecker.test_opensource_provider, Client.post, h]
  · simp [HealthChecker.test_openai_provider, Client.post, h, hg]
  · simp [HealthChecker.test_anthropic_provider, Client.post, h, hg]

/-- Witness for C6: a concrete connection failure yields the exception result
and exactly one issued request on each probe. -/
theorem probe_transport_exception_witness :
    ((checkerOf cfg0 (CallResult.exn ("Connection refused"))).test_opensource_provider
        false).fst =
      { provider := "opensource", status_code := 0, success := false,
        response_time := 0, error := some ("Connection refused"),
        response_data := none, full_response := none } ∧
    ((checkerOf cfg0 (CallResult.exn ("Connection refused"))).test_openai_provider
        false).snd.client.callCount = 1 ∧
    ((checkerOf cfg0 (CallResult.exn ("Connection refused"))).test_anthropic_provider
        false).snd.client.requests.length = 1 := by
  have h := probe_transport_exception
    (checkerOf cfg0 (CallResult.exn ("Connection refused"))) false
    ("Connection refused") rfl
  exact ⟨h.1.1, (h.2.1 (by decide)).2.1, (h.2.2 (by decide)).2.2⟩

/-- C5 counterexample: the claim says a non-200 probe result carries elapsed
time undefined/zero, but the code stores the measured elapsed time of the
response: on an HTTP 500 answered after 5 seconds the result records
response_time = 5, not 0 (the success flag and error text parts do hold). -/
theorem probe_non200_time_cex :
    (((checkerOf cfg0
        (CallResult.ok ⟨500, "Internal Server Error", Except.error ("not json"), 5⟩)).test_opensource_provider
        false).fst.success = false) ∧
    (((checkerOf cfg0
        (CallResult.ok ⟨500, "Internal Server Error", Except.error ("not json"), 5⟩)).test_opensource_provider
        false).fst.error = some ("Internal Server Error")) ∧
    (((checkerOf cfg0
        (CallResult.ok ⟨500, "Internal Server Error", Except.error ("not json"), 5⟩)).test_opensource_provider
        false).fst.response_time = 5) ∧
    ¬(((checkerOf cfg0
        (CallResult.ok ⟨500, "Internal Server Error", Except.error ("not json"), 5⟩)).test_opensource_provider
        false).fst.response_time = 0) := by
  refine ⟨rfl, rfl, rfl, by decide⟩

/-- C5 (amended): on a non-200 response every probe returns success=false and
error equal to the raw response body text, and its response_time equals the
response's measured elapsed time (which the code copies unchanged, rather
than leaving it zero). The openai and anthropic parts assume their key gate
is open, since otherwise no response is ever received. -/
theorem probe_non200_result (hc : HealthChecker) (v : Bool) (resp : HttpResponse)
    (hr : nextOutcome hc.client = CallResult.ok resp)
    (hs : resp.status_code ≠ 200) :
    ((hc.test_opensource_provider v).fst.success = false ∧
      (hc.test_opensource_provider v).fst.error = some resp.text ∧
      (hc.test_opensource_provider v).fst.response_time = resp.elapsedSeconds ∧
      (hc.test_opensource_provider v).fst.status_code = resp.status_code) ∧
    ((!truthy hc.config.OPENAI_API_KEY ||
        hc.config.OPENAI_API_KEY == some ("your_openai_api_key_here")) = false →
      (hc.test_openai_provider v).fst.success = false ∧
      (hc.test_openai_provider v).fst.error = some resp.text ∧
      (hc.test_openai_provider v).fst.response_time = resp.elapsedSeconds ∧
      (hc.test_openai_provider v).fst.status_code = resp.status_code) ∧
    ((!truthy hc.config.ANTHROPIC_API_KEY ||
        hc.config.ANTHROPIC_API_KEY == some ("your_anthropic_api_key_here")) = false →
      (hc.test_anthropic_provider v).fst.success = false ∧
      (hc.test_anthropic_provider v).fst.error = some resp.text ∧
      (hc.test_anthropic_provider v).fst.response_time = resp.elapsedSeconds ∧
      (hc.test_anthropic_provider v).fst.status_code = resp.status_code) := by
  simp only [nextOutcome] at hr
  refine ⟨?_, fun hg => ?_, fun hg => ?_⟩
  · simp [HealthChecker.test_opensource_provider, Client.post, hr, hs]
  · simp [HealthChecker.test_openai_provider, Client.post, hr, hs, hg]
  · simp [HealthChecker.test_anthropic_provider, Client.post, hr, hs, hg]

/-- Witness for C5 (amended): a concrete HTTP 500 with body "oops" answered
after 7 seconds yields failure, error "oops" and response_time 7 on the
opensource and openai probes. -/
theorem probe_non200_result_witness :
    (((checkerOf cfg0 (CallResult.ok ⟨500, "oops", Except.error ("bad"), 7⟩)).test_opensource_provider
        false).fst.success = false) ∧
    (((checkerOf cfg0 (CallResult.ok ⟨500, "oops", Except.error ("bad"), 7⟩)).test_opensource_provider
        false).fst.error = some ("oops")) ∧
    (((checkerOf cfg0 (CallResult.ok ⟨500, "oops", Except.error ("bad"), 7⟩)).test_openai_provider
        false).fst.response_time = 7) := by
  have h := probe_non200_result
    (checkerOf cfg0 (CallResult.ok ⟨500, "oops", Except.error ("bad"), 7⟩)) false
    ⟨500, "oops", Except.error ("bad"), 7⟩ rfl (by decide)
  exact ⟨h.1.1, h.1.2.1, (h.2.1 (by decide)).2.2.1⟩

/-- C3 counterexample: on HTTP 200 with JSON body containing a token field
whose value is the empty string, the field is present and its value is stored
into the session credential, yet register_user signals failure — refuting the
claimed "if and only if". -/
theorem register_user_empty_token_cex :
    (((checkerOf cfg0
        (CallResult.ok ⟨200, "", Except.ok ⟨some (""), ""⟩, 1⟩)).register_user
        ("alice") ("1234")).fst = false) ∧
    (((checkerOf cfg0
        (CallResult.ok ⟨200, "", Except.ok ⟨some (""), ""⟩, 1⟩)).register_user
        ("alice") ("1234")).snd.jwt_token = some ("")) := by
  exact ⟨rfl, rfl⟩

/-- C3 (amended): register_user signals success iff the response has status
200 and carries a decodable JSON body whose token field is present and
truthy (non-empty); moreover on every decodable 200 response the token field
value — even an empty one — is stored as the session credential. Non-200
statuses, bodies without a usable token and transport exceptions all signal
failure. -/
theorem register_user_success_iff (hc : HealthChecker) (u p : String) :
    ((hc.register_user u p).fst = true ↔
      ∃ resp, nextOutcome hc.client = CallResult.ok resp ∧
        resp.status_code = 200 ∧ truthy (respToken resp) = true) ∧
    (∀ resp dta, nextOutcome hc.client = CallResult.ok resp →
      resp.status_code = 200 → resp.json = Except.ok dta →
      (hc.register_user u p).snd.jwt_token = dta.tokenField) := by
  constructor
  · simp only [HealthChecker.register_user, Client.post, nextOutcome]
    cases hr : hc.client.transport hc.client.callCount with
    | ok resp =>
        by_cases hs : resp.status_code = 200
        · cases hj : resp.json with
          | ok dta =>
              by_cases ht : truthy dta.tokenField
              · simp [hs, hj, ht, respToken]
              · simp [hs, hj, ht, respToken]
          | error msg => simp [hs, hj, respToken, truthy]
        · simp [hs]
    | exn msg => simp
  · intro resp dta hr hs hj
    simp only [nextOutcome] at hr
    simp only [HealthChecker.register_user, Client.post, hr, hs, hj, if_true]
    by_cases ht : truthy dta.tokenField
    · simp [ht]
    · simp [ht]

/-- Witness for C3 (amended): on HTTP 200 with body containing token "abc",
registration succeeds and the stored credential equals "abc". -/
theorem register_user_success_iff_witness :
    (((checkerOf cfg0
        (CallResult.ok ⟨200, "", Except.ok ⟨some ("abc"), "body"⟩, 1⟩)).register_user
        ("alice") ("1234")).fst = true) ∧
    (((checkerOf cfg0
        (CallResult.ok ⟨200, "", Except.ok ⟨some ("abc"), "body"⟩, 1⟩)).register_user
        ("alice") ("1234")).snd.jwt_token = some ("abc")) := by
  have h := register_user_success_iff
    (checkerOf cfg0 (CallResult.ok ⟨200, "", Except.ok ⟨some ("abc"), "body"⟩, 1⟩))
    ("alice") ("1234")
  exact ⟨h.1.mpr ⟨⟨200, "", Except.ok ⟨some ("abc"), "body"⟩, 1⟩, rfl, rfl, rfl⟩,
    h.2 ⟨200, "", Except.ok ⟨some ("abc"), "body"⟩, 1⟩ ⟨some ("abc"), "body"⟩ rfl rfl rfl⟩

/-- C9 counterexample: the claim requires that no exception propagate uncaught
on any execution path of main, including configuration loading; but
`load_config` runs before the try block, so with the environment variable
PROXY_TIMEOUT set to the non-numeric string "abc" the ValueError raised by
`int()` escapes main uncaught, even with credentials supplied. -/
theorem main_uncaught_config_cex :
    main'
      { verbose := false, show_token := false, token_only := false,
        provider := none, username := some ("alice"), pin := some ("1234") }
      { OPENAI_API_KEY := none, OPENAI_ORG_ID := none, ANTHROPIC_API_KEY := none,
        PROXY_BASE_URL := none, PROXY_TIMEOUT := some ("abc"),
        DEFAULT_USERNAME := none, DEFAULT_PIN := none }
      (fun _ => CallResult.exn ("unreachable")) false =
    Except.error ("ValueError: invalid literal for int with base 10: abc") := by
  rfl

/-- C9 (amended): the top-level handler covers everything from the try block
on — registration, probes, reporting — so main returns normally (mapping all
caught failures to exit codes) exactly when configuration loading itself does
not raise; the only uncaught path is a ValueError from parsing PROXY_TIMEOUT
in `load_config`, which runs before the try block. -/
theorem main_uncaught_iff (args : Args) (env : Env)
    (transport : Nat → CallResult) (kb : Bool) :
    returnedNormally (main' args env transport kb) =
      (pyIntParse (env.PROXY_TIMEOUT.getD ("30"))).isSome := by
  cases h : pyIntParse (env.PROXY_TIMEOUT.getD ("30")) with
  | none => simp [main', load_config, h, returnedNormally]
  | some t =>
      simp only [main', load_config, h, Option.isSome]
      repeat' split
      all_goals rfl

/-- C2: whenever neither the CLI arguments nor the environment supplies a
(truthy) username, or neither supplies a PIN, the process exits with code 1
having issued no HTTP request, and — on the normal-return path — has printed
a credential error message before doing anything else. -/
theorem main_missing_credentials (args : Args) (env : Env)
    (transport : Nat → CallResult) (kb : Bool)
    (h : truthy (pyOr args.username env.DEFAULT_USERNAME) = false ∨
      truthy (pyOr args.pin env.DEFAULT_PIN) = false) :
    processExitCode (main' args env transport kb) = 1 ∧
    requestsOf (main' args env transport kb) = [] ∧
    (∀ m, main' args env transport kb = Except.ok m → m.credError.isSome = true) := by
  cases h0 : pyIntParse (env.PROXY_TIMEOUT.getD ("30")) with
  | none => simp [main', load_config, h0, processExitCode, requestsOf]
  | some t =>
      rcases h with hu | hp
      · simp [main', load_config, h0, hu, processExitCode, requestsOf]
      · by_cases hu : truthy (pyOr args.username env.DEFAULT_USERNAME) = true
        · simp [main', load_config, h0, hu, hp, processExitCode, requestsOf]
        · simp only [Bool.not_eq_true] at hu
          simp [main', load_config, h0, hu, processExitCode, requestsOf]

/-- Witness for C2: with no username anywhere, the run exits 1 without any
HTTP request. -/
theorem main_missing_credentials_witness :
    processExitCode (main'
      { verbose := false, show_token := false, token_only := false,
        provider := none, username := none, pin := none }
      { OPENAI_API_KEY := none, OPENAI_ORG_ID := none, ANTHROPIC_API_KEY := none,
        PROXY_BASE_URL := none, PROXY_TIMEOUT := none,
        DEFAULT_USERNAME := none, DEFAULT_PIN := none }
      (fun _ => CallResult.exn ("unreachable")) false) = 1 ∧
    requestsOf (main'
      { verbose := false, show_token := false, token_only := false,
        provider := none, username := none, pin := none }
      { OPENAI_API_KEY := none, OPENAI_ORG_ID := none, ANTHROPIC_API_KEY := none,
        PROXY_BASE_URL := none, PROXY_TIMEOUT := none,
        DEFAULT_USERNAME := none, DEFAULT_PIN := none }
      (fun _ => CallResult.exn ("unreachable")) false) = [] := by
  have h := main_missing_credentials
    { verbose := false, show_token := false, token_only := false,
      provider := none, username := none, pin := none }
    { OPENAI_API_KEY := none, OPENAI_ORG_ID := none, ANTHROPIC_API_KEY := none,
      PROXY_BASE_URL := none, PROXY_TIMEOUT := none,
      DEFAULT_USERNAME := none, DEFAULT_PIN := none }
    (fun _ => CallResult.exn ("unreachable")) false (Or.inl rfl)
  exact ⟨h.1, h.2.1⟩

/-- C7: when credentials are available and the registration endpoint answers
with a non-200 status (e.g. HTTP 401), main returns exit code 1, the results
dictionary stays empty (no provider probe is invoked) and the only HTTP
request of the whole run is the one to /auth/register. -/
theorem auth_failure_no_probes (args : Args) (env : Env)
    (transport : Nat → CallResult) (resp : HttpResponse) (t : Int)
    (hcfg : pyIntParse (env.PROXY_TIMEOUT.getD ("30")) = some t)
    (hu : truthy (pyOr args.username env.DEFAULT_USERNAME) = true)
    (hp : truthy (pyOr args.pin env.DEFAULT_PIN) = true)
    (hr : transport 0 = CallResult.ok resp)
    (hs : resp.status_code ≠ 200) :
    ∃ m, main' args env transport false = Except.ok m ∧
      m.exitCode = 1 ∧ m.results = [] ∧ m.registered = some false ∧
      m.requests = [{ url := env.PROXY_BASE_URL.getD ("http://aitools.cs.vt.edu:7860") ++
        "/auth/register", headers := [] }] := by
  simp [main', load_config, hcfg, hu, hp, HealthChecker.register_user,
    Client.post, hr, hs]

/-- Witness for C7: a mocked /auth/register answering HTTP 401 yields exit
code 1, an empty results dictionary and a single registration request. -/
theorem auth_failure_no_probes_witness :
    ∃ m, main'
      { verbose := false, show_token := false, token_only := false,
        provider := none, username := some ("alice"), pin := some ("1234") }
      { OPENAI_API_KEY := none, OPENAI_ORG_ID := none, ANTHROPIC_API_KEY := none,
        PROXY_BASE_URL := none, PROXY_TIMEOUT := none,
        DEFAULT_USERNAME := none, DEFAULT_PIN := none }
      (fun _ => CallResult.ok ⟨401, "Unauthorized", Except.error ("nope"), 1⟩)
      false = Except.ok m ∧
      m.exitCode = 1 ∧ m.results = [] ∧ m.registered = some false ∧
      m.requests = [{ url := (none : Option String).getD ("http://aitools.cs.vt.edu:7860") ++
        "/auth/register", headers := [] }] := by
  exact auth_failure_no_probes
    { verbose := false, show_token := false, token_only := false,
      provider := none, username := some ("alice"), pin := some ("1234") }
    { OPENAI_API_KEY := none, OPENAI_ORG_ID := none, ANTHROPIC_API_KEY := none,
      PROXY_BASE_URL := none, PROXY_TIMEOUT := none,
      DEFAULT_USERNAME := none, DEFAULT_PIN := none }
    (fun _ => CallResult.ok ⟨401, "Unauthorized", Except.error ("nope"), 1⟩)
    ⟨401, "Unauthorized", Except.error ("nope"), 1⟩ 30 rfl rfl rfl rfl
    (by decide)

/-- C8: with --token-only set, credentials available and registration
succeeding (HTTP 200 whose body carries a non-empty token), main prints the
obtained token, exits with code 0, invokes no provider probe (empty results
dictionary) and issues only the single registration request. -/
theorem token_only_flow (args : Args) (env : Env)
    (transport : Nat → CallResult) (resp : HttpResponse) (dta : JsonBody)
    (t : Int) (tok : String)
    (hcfg : pyIntParse (env.PROXY_TIMEOUT.getD ("30")) = some t)
    (hu : truthy (pyOr args.username env.DEFAULT_USERNAME) = true)
    (hp : truthy (pyOr args.pin env.DEFAULT_PIN) = true)
    (hto : args.token_only = true)
    (hr : transport 0 = CallResult.ok resp)
    (hs : resp.status_code = 200)
    (hj : resp.json = Except.ok dta)
    (htok : dta.tokenField = some tok)
    (hne : truthy (some tok) = true) :
    ∃ m, main' args env transport false = Except.ok m ∧
      m.exitCode = 0 ∧ m.results = [] ∧ m.tokenPrinted = some tok ∧
      m.requests.length = 1 := by
  simp [main', load_config, hcfg, hu, hp, hto, HealthChecker.register_user,
    Client.post, hr, hs, hj, htok, hne, pyStr]

/-- Witness for C8: with --token-only and a mocked /auth/register answering
HTTP 200 with token "tok123", main exits 0, prints "tok123", and runs no
probe. -/
theorem token_only_flow_witness :
    ∃ m, main'
      { verbose := false, show_token := false, token_only := true,
        provider := none, username := some ("alice"), pin := some ("1234") }
      { OPENAI_API_KEY := none, OPENAI_ORG_ID := none, ANTHROPIC_API_KEY := none,
        PROXY_BASE_URL := none, PROXY_TIMEOUT := none,
        DEFAULT_USERNAME := none, DEFAULT_PIN := none }
      (fun _ => CallResult.ok ⟨200, "", Except.ok ⟨some ("tok123"), "body"⟩, 1⟩)
      false = Except.ok m ∧
      m.exitCode = 0 ∧ m.results = [] ∧ m.tokenPrinted = some ("tok123") ∧
      m.requests.length = 1 := by
  exact token_only_flow
    { verbose := false, show_token := false, token_only := true,
      provider := none, username := some ("alice"), pin := some ("1234") }
    { OPENAI_API_KEY := none, OPENAI_ORG_ID := none, ANTHROPIC_API_KEY := none,
      PROXY_BASE_URL := none, PROXY_TIMEOUT := none,
      DEFAULT_USERNAME := none, DEFAULT_PIN := none }
    (fun _ => CallResult.ok ⟨200, "", Except.ok ⟨some ("tok123"), "body"⟩, 1⟩)
    ⟨200, "", Except.ok ⟨some ("tok123"), "body"⟩, 1⟩ ⟨some ("tok123"), "body"⟩
    30 ("tok123") rfl rfl rfl rfl rfl rfl rfl rfl rfl

/-- C1: the process exit code is always 0 or 1, and it is 0 exactly when the
run completed normally through a successful registration (credentials present,
no uncaught configuration error, no keyboard interrupt) with every invoked
probe reporting success — in particular, in token-only mode no probe is
invoked and the code is 0, while a failed probe, missing credentials, failed
authentication, an interrupt, or an uncaught error all yield 1. -/
theorem main_exit_code_policy (args : Args) (env : Env)
    (transport : Nat → CallResult) (kb : Bool) :
    (processExitCode (main' args env transport kb) = 0 ∨
      processExitCode (main' args env transport kb) = 1) ∧
    (processExitCode (main' args env transport kb) = 0 ↔
      ∃ m, main' args env transport kb = Except.ok m ∧
        m.registered = some true ∧ kb = false ∧
        ∀ r ∈ m.results, r.2.success = true) := by
  cases h0 : pyIntParse (env.PROXY_TIMEOUT.getD ("30")) with
  | none => simp [main', load_config, h0, processExitCode]
  | some t =>
      simp only [main', load_config, h0]
      repeat' split
      all_goals simp_all [processExitCode, filter_deficit_zero_iff]
      all_goals assumption
